import Mathlib

/-!
Shallow embedding of the adaptnlp translation stack: the callback pipeline
(src/adaptnlp/callback.py), the shared learner facade (src/adaptnlp/model.py)
and the translator (src/adaptnlp/translation.py).  Tensors are abstracted as
lists of natural-number token ids; the external tokenizer, model and decoder
are parameters of the embedded functions.
-/

namespace AdaptNLP

/-- Token-id sequences stand in for torch tensors. -/
abbrev Tensor := List Nat

/-- Generation parameters passed to the external generate call
(`GeneratorCallback.__init__` in src/adaptnlp/callback.py: num_beams,
min_length, max_length, early_stopping plus passthrough kwargs). -/
structure GenParams where
  numBeams : Nat := 1
  minLength : Nat := 0
  maxLength : Nat := 128
  earlyStopping : Bool := true
  kwargs : List (String × String) := []
deriving DecidableEq, Repr

/-! ## The batch-processing stage (src/adaptnlp/callback.py)

`learn.xb` is either the positional batch (a tuple of tensors) or, after
`SetInputsCallback` with as_dict, the structured-inputs mapping.  Mappings are
embedded as association lists, which preserve Python dict insertion order. -/

/-- The value of `self.learn.xb`: positional tuple or structured dict. -/
inductive XBVal (α : Type) where
  | positional (l : List α)
  | dict (m : List (String × α))
deriving DecidableEq, Repr

/-- The slice of learner state the before_batch hooks read and write:
`learn.xb`, `learn.inputs` (absent until GatherInputsCallback runs) and
`learn.pred`. -/
structure LearnState (α : Type) where
  xb : XBVal α
  inputs : Option (List (String × α))
  pred : Option α
deriving DecidableEq, Repr

/-- A signal escaping a hook: `CancelBatchException` (caught by the stage,
aborts the rest of the batch) or an ordinary Python error (propagates). -/
inductive Signal where
  | cancelBatch
  | pyError
deriving DecidableEq, Repr

/-- A before_batch hook: reads the learner state and returns the updated
state together with an optional escaping signal. -/
def CBStep (α : Type) := LearnState α → LearnState α × Option Signal

/-- The structured-inputs mapping built by `GatherInputsCallback.before_batch`
from batch positions 0, 1 and (when present) 2:
keys input_ids, attention_mask and, iff the batch has a third element,
token_type_ids (src/adaptnlp/callback.py lines 34-42). -/
def gatherInputsMap {α : Type} (x0 x1 : α) (rest : List α) : List (String × α) :=
  ("input_ids", x0) :: ("attention_mask", x1) ::
    (match rest with
     | x2 :: _ => [("token_type_ids", x2)]
     | [] => [])

/-- `GatherInputsCallback.before_batch`: indexes `learn.xb` at 0 and 1 (an
out-of-range or non-positional access is a Python error) and publishes the
structured-inputs mapping to `learn.inputs`. -/
def gatherStep {α : Type} : CBStep α := fun st =>
  match st.xb with
  | .positional (x0 :: x1 :: rest) =>
      ({ st with inputs := some (gatherInputsMap x0 x1 rest) }, none)
  | _ => (st, some .pyError)

/-- `SetInputsCallback` state: the routing flag, defaulting to false
(src/adaptnlp/callback.py line 50). -/
structure SetInputsCallback where
  as_dict : Bool := false
deriving DecidableEq, Repr

/-- `SetInputsCallback.before_batch`: exposes `learn.inputs` as `learn.xb`,
either as the list of the mapping's values in insertion order (as_dict false)
or as the mapping itself (as_dict true).  Reading `learn.inputs` before it
exists is a Python error. -/
def setInputsStep {α : Type} (cb : SetInputsCallback) : CBStep α := fun st =>
  match st.inputs with
  | some m =>
      ({ st with xb := if cb.as_dict then .dict m else .positional (m.map Prod.snd) }, none)
  | none => (st, some .pyError)

/-- `GeneratorCallback.before_batch`: reads input_ids and attention_mask from
the dict-routed `learn.xb`, calls the external generate with the configured
parameters, stores the result in `learn.pred`, then raises
`CancelBatchException` (src/adaptnlp/callback.py lines 71-88).  A positional
`xb` or a missing key is a Python error. -/
def generatorStep {α : Type} (gen : GenParams → α → α → α) (p : GenParams) :
    CBStep α := fun st =>
  match st.xb with
  | .dict m =>
      match m.lookup "input_ids", m.lookup "attention_mask" with
      | some ids, some mask =>
          ({ st with pred := some (gen p ids mask) }, some .cancelBatch)
      | _, _ => (st, some .pyError)
  | .positional _ => (st, some .pyError)

/-- Modelled from the spec: the external loop's batch-processing stage runs
each registered hook's before_batch in order; the first escaping signal stops
the remaining hooks (spec section 6, hook stage abstraction). -/
def runBeforeBatch {α : Type} (hooks : List (CBStep α)) (st : LearnState α) :
    LearnState α × Option Signal :=
  match hooks with
  | [] => (st, none)
  | h :: hs =>
      match h st with
      | (st', none) => runBeforeBatch hs st'
      | (st', some s) => (st', some s)

/-- Modelled from the spec: after the before_batch hooks, the stage runs the
loop's default forward/loss computation `fwd` — unless a hook signalled
CancelBatchException, which the stage catches and which skips the default
computation for this batch; other errors propagate (spec sections 4.3 and 6). -/
def runBatchStage {α : Type} (hooks : List (CBStep α))
    (fwd : LearnState α → LearnState α) (st : LearnState α) :
    LearnState α × Option Signal :=
  match runBeforeBatch hooks st with
  | (st', none) => (fwd st', none)
  | (st', some .cancelBatch) => (st', none)
  | (st', some .pyError) => (st', some .pyError)

/-! ## Hook priorities (claim C6) -/

/-- `GatherInputsCallback.order` (src/adaptnlp/callback.py line 18). -/
def GatherInputsCallback.order : Int := -3

/-- `SetInputsCallback.order` (src/adaptnlp/callback.py line 48). -/
def SetInputsCallback.order : Int := -1

/-- Modelled from the spec: `GeneratorCallback` declares no explicit priority
and keeps the external framework's default (0), making it run last among the
pre-computation hooks (spec section 4.3). -/
def GeneratorCallback.order : Int := 0

/-- The three hook kinds of the pipeline. -/
inductive CBKind where
  | gather
  | setInputs
  | generator
deriving DecidableEq, Repr

/-- The priority of each hook kind. -/
def orderOf : CBKind → Int
  | .gather => GatherInputsCallback.order
  | .setInputs => SetInputsCallback.order
  | .generator => GeneratorCallback.order

/-- Insert a hook into a priority-sorted list (stable, more-negative first). -/
def insertHook (c : CBKind) : List CBKind → List CBKind
  | [] => [c]
  | d :: ds => if orderOf c ≤ orderOf d then c :: d :: ds else d :: insertHook c ds

/-- Modelled from the spec: the external framework sorts registered hooks by
their priority value, more-negative running earlier (spec section 4.3). -/
def sortHooks : List CBKind → List CBKind
  | [] => []
  | c :: cs => insertHook c (sortHooks cs)

/-! ## The translator's predict pipeline (src/adaptnlp/translation.py) -/

/-- The `text` argument of predict: a single string or a list of strings. -/
inductive TextInput where
  | single (s : String)
  | listOf (l : List String)
deriving DecidableEq, Repr

/-- The input-normalization step of predict (src/adaptnlp/translation.py
lines 89-90): a single string becomes a one-element list. -/
def normalizeText : TextInput → List String
  | .single s => [s]
  | .listOf l => l

/-- The T5 prompt convention (src/adaptnlp/translation.py lines 93-94): when
the bound model is a T5 conditional-generation model, every item gets the
task precursor text prepended. -/
def applyT5Pre (isT5 : Bool) (t5Pre : String) (texts : List String) : List String :=
  if isT5 then texts.map (fun t => t5Pre ++ ": " ++ t) else texts

/-- The mini-batching performed by the data loader over the tokenized
dataset: consecutive chunks of at most `b` rows, in order (the loader is
external; a zero batch size never reaches it in this code path). -/
def chunks {α : Type} : Nat → List α → List (List α)
  | _, [] => []
  | 0, x :: xs => [x :: xs]
  | b + 1, x :: xs => ((x :: xs).take (b + 1)) :: chunks (b + 1) ((x :: xs).drop (b + 1))
termination_by _ l => l.length
decreasing_by
  simp only [List.length_drop, List.length_cons]
  omega

/-- Events observable while predict runs, in the order the code reaches
them: the `_tokenize` call (line 96), the `get_preds` call (line 105), the
decode loop (lines 109-118). -/
inductive PredictEvent where
  | tokenize
  | getPreds
  | decodeLoop
deriving DecidableEq, Repr

/-- The errors this layer raises (src/adaptnlp/model.py lines 88-90,
src/adaptnlp/translation.py lines 140-148). -/
inductive AdaptError where
  | valueError
  | configurationError
  | notImplementedError
deriving DecidableEq, Repr

/-- What a predict call produces: the trace of reached events and either the
decoded translations or the raised error. -/
structure PredictOutcome where
  events : List PredictEvent
  result : Except AdaptError (List String)
deriving Repr

/-- `TransformersTranslator.predict` (src/adaptnlp/translation.py lines
64-120), parameterized by the external collaborators: `encode` is the
per-row tokenizer output (input_ids and attention_mask, from
`_tokenize`/`batch_encode_plus`), `gen` is the external
`model.generate` mapping each input row to one generated token sequence
(spec section 6), `squeeze` the per-sequence squeeze(0) post-processing and
`decode` the tokenizer's decode.  `modelSet` records whether a real model
replaced the placeholder in the shared learner; `get_preds` checks it and
raises the configuration error (src/adaptnlp/model.py lines 88-90), after
tokenization and loader construction have already happened.  The external
`get_preds` aggregates per-batch generation output in input order (spec
section 6). -/
def predictRun (modelSet : Bool) (isT5 : Bool)
    (encode : String → Tensor × Tensor) (gen : GenParams → Tensor → Tensor → Tensor)
    (squeeze : Tensor → Tensor) (decode : Tensor → String)
    (text : TextInput) (t5Pre : String) (miniBatchSize : Nat) (p : GenParams) :
    PredictOutcome :=
  let texts := normalizeText text
  let texts := applyT5Pre isT5 t5Pre texts
  let dataset := texts.map encode
  let batches := chunks miniBatchSize dataset
  if modelSet then
    let preds := (batches.map (fun b => b.map (fun r => gen p r.1 r.2))).flatten
    let preds := preds.map squeeze
    { events := [.tokenize, .getPreds, .decodeLoop]
      result := .ok (preds.map decode) }
  else
    { events := [.tokenize, .getPreds]
      result := .error .configurationError }

/-- The per-item composite predict computes for each input string: prepend
the T5 precursor when applicable, tokenize, generate, squeeze, decode. -/
def translateOne (isT5 : Bool) (encode : String → Tensor × Tensor)
    (gen : GenParams → Tensor → Tensor → Tensor) (squeeze : Tensor → Tensor)
    (decode : Tensor → String) (t5Pre : String) (p : GenParams) (t : String) : String :=
  let r := encode (if isT5 then t5Pre ++ ": " ++ t else t)
  decode (squeeze (gen p r.1 r.2))

/-- `TransformersTranslator.train` (src/adaptnlp/translation.py lines
140-143): unconditionally raises NotImplementedError. -/
def TransformersTranslator.train {σ : Type} (_self : σ) : Except AdaptError Unit :=
  .error .notImplementedError

/-- `TransformersTranslator.evaluate` (src/adaptnlp/translation.py lines
145-148): unconditionally raises NotImplementedError. -/
def TransformersTranslator.evaluate {σ : Type} (_self : σ) : Except AdaptError Unit :=
  .error .notImplementedError

/-! ## The wrapper-level registry (src/adaptnlp/translation.py lines 151-206) -/

/-- `EasyTranslator` state: the `translators` registry, a mapping from model
identifier to the constructed translator; created empty (a defaultdict whose
missing entries are falsy).  Stored translator objects are truthy. -/
structure EasyTranslator (T : Type) where
  translators : List (String × T) := []
deriving DecidableEq, Repr

/-- `EasyTranslator.translate` (src/adaptnlp/translation.py lines 166-206):
when the registry has no (truthy) entry for the identifier, construct the
translator via `load` and cache it; then delegate to the chosen translator's
predict, abstracted here as `doPredict`.  The returned flag records whether
this call constructed a new translator. -/
def EasyTranslator.translate {T R : Type} (load : String → T) (doPredict : T → R)
    (st : EasyTranslator T) (key : String) : R × EasyTranslator T × Bool :=
  match st.translators.lookup key with
  | some tr => (doPredict tr, st, false)
  | none =>
      let tr := load key
      (doPredict tr, { translators := st.translators ++ [(key, tr)] }, true)

/-! ## The class-level shared execution context (src/adaptnlp/model.py)

`AdaptiveModel._learn = _BaseLearner()` runs once, at class-definition time;
instances never assign `self._learn`, so attribute lookup on any instance
falls through to the single class-level cell.  The embedding models the heap
of learner cells, the class dictionary holding the reference, and Python's
instance-then-class attribute lookup. -/

/-- The model slot of the shared learner: the `_NoopModel` placeholder until
`set_model` stores a real model (src/adaptnlp/model.py lines 61-62, 102-106). -/
inductive ModelSlot (M : Type) where
  | noop
  | real (m : M)
deriving DecidableEq, Repr

/-- One `_BaseLearner` heap cell: the bound model and the `as_dict` flag of
the `SetInputsCallback` in its class-level callback list (src/adaptnlp/model.py
lines 55, 93-100). -/
structure BaseLearnerCell (M : Type) where
  model : ModelSlot M := .noop
  as_dict : Bool := false
deriving DecidableEq, Repr

/-- The heap of learner cells, addressed by index. -/
structure Heap (M : Type) where
  cells : List (BaseLearnerCell M)
deriving DecidableEq, Repr

/-- The `AdaptiveModel` class dictionary: the reference its `_learn` class
attribute holds. -/
structure ClassEnv where
  learnRef : Nat
deriving DecidableEq, Repr

/-- An `AdaptiveModel` instance: its instance dictionary, recording only
entries that could shadow the `_learn` class attribute.  The constructors in
this repository never write an `_learn` instance attribute. -/
structure PyInst where
  attrs : List (String × Nat) := []
deriving DecidableEq, Repr

/-- Class-definition time: `_learn = _BaseLearner()` allocates one fresh
learner cell and stores its reference in the class dictionary
(src/adaptnlp/model.py line 110). -/
def classInit {M : Type} (h : Heap M) : Heap M × ClassEnv :=
  ({ cells := h.cells ++ [{}] }, { learnRef := h.cells.length })

/-- Python attribute lookup for `self._learn`: the instance dictionary first,
then the class dictionary. -/
def learnRefOf (cls : ClassEnv) (i : PyInst) : Nat :=
  match i.attrs.lookup "_learn" with
  | some r => r
  | none => cls.learnRef

/-- Update the learner cell at a reference in place. -/
def Heap.modifyCell {M : Type} (h : Heap M) (r : Nat)
    (f : BaseLearnerCell M → BaseLearnerCell M) : Heap M :=
  match h.cells[r]? with
  | some c => { cells := h.cells.set r (f c) }
  | none => h

/-- `AdaptiveModel.set_model` invoked through an instance: resolves `_learn`
by attribute lookup and mutates that cell's model (src/adaptnlp/model.py
lines 102-106, 112-115). -/
def setModelVia {M : Type} (cls : ClassEnv) (i : PyInst) (h : Heap M) (m : M) : Heap M :=
  h.modifyCell (learnRefOf cls i) (fun c => { c with model := .real m })

/-- `AdaptiveModel.set_as_dict` invoked through an instance: resolves
`_learn` and mutates the `as_dict` flag of the SetInputsCallback in that
cell's callback list (src/adaptnlp/model.py lines 93-100, 117-119). -/
def setAsDictVia {M : Type} (cls : ClassEnv) (i : PyInst) (h : Heap M) (b : Bool) : Heap M :=
  h.modifyCell (learnRefOf cls i) (fun c => { c with as_dict := b })

/-- The model another instance observes through its own `_learn` lookup. -/
def observeModelVia {M : Type} (cls : ClassEnv) (i : PyInst) (h : Heap M) :
    Option (ModelSlot M) :=
  (h.cells[learnRefOf cls i]?).map (fun c => c.model)

/-- The routing flag another instance observes through its own `_learn`
lookup. -/
def observeAsDictVia {M : Type} (cls : ClassEnv) (i : PyInst) (h : Heap M) :
    Option Bool :=
  (h.cells[learnRefOf cls i]?).map (fun c => c.as_dict)

/-! ## Helper lemmas -/

/-- Flattening the loader's mini-batches restores the dataset in order. -/
theorem chunks_flatten {α : Type} (b : Nat) (l : List α) : (chunks b l).flatten = l := by
  match b, l with
  | _, [] => simp [chunks]
  | 0, x :: xs => simp [chunks]
  | b + 1, x :: xs =>
    rw [chunks, List.flatten_cons, chunks_flatten (b + 1) ((x :: xs).drop (b + 1))]
    exact List.take_append_drop _ _
termination_by l.length
decreasing_by
  simp only [List.length_drop, List.length_cons]
  omega

/-- Mapping a row-wise function over every mini-batch and flattening equals
mapping it over the dataset: batching does not change per-row results or
their order. -/
theorem chunks_map_flatten {α β : Type} (b : Nat) (l : List α) (g : α → β) :
    ((chunks b l).map (List.map g)).flatten = l.map g := by
  rw [← List.map_flatten, chunks_flatten]

/-- The T5 prompt step is a per-item map. -/
theorem applyT5Pre_eq_map (isT5 : Bool) (t5Pre : String) (texts : List String) :
    applyT5Pre isT5 t5Pre texts
      = texts.map (fun t => if isT5 then t5Pre ++ ": " ++ t else t) := by
  cases isT5 with
  | false => simp [applyT5Pre]
  | true => simp [applyT5Pre]

/-! ## Claim theorems -/

/-- Claim C4: for every batch of length 2, GatherInputsCallback.before_batch
produces a mapping with exactly the keys input_ids and attention_mask bound
to batch positions 0 and 1; for every batch of length 3 it additionally (and
only then) binds token_type_ids to position 2. -/
theorem c4_gather_inputs_keys {α : Type} (x0 x1 x2 : α)
    (inputs0 : Option (List (String × α))) (pred0 : Option α) :
    gatherStep ⟨.positional [x0, x1], inputs0, pred0⟩
      = (⟨.positional [x0, x1],
          some [("input_ids", x0), ("attention_mask", x1)], pred0⟩, none)
  ∧ gatherStep ⟨.positional [x0, x1, x2], inputs0, pred0⟩
      = (⟨.positional [x0, x1, x2],
          some [("input_ids", x0), ("attention_mask", x1), ("token_type_ids", x2)],
          pred0⟩, none) := by
  exact ⟨rfl, rfl⟩

/-- Claim C5: SetInputsCallback with as_dict false exposes the batch as the
sequence of the mapping's values in insertion order (input_ids,
attention_mask, then token_type_ids if present), with as_dict true it
exposes the identical mapping unchanged, and the flag defaults to false at
construction. -/
theorem c5_set_inputs_routing {α : Type} (m : List (String × α)) (xb0 : XBVal α)
    (pred0 : Option α) :
    setInputsStep ⟨false⟩ ⟨xb0, some m, pred0⟩
      = (⟨.positional (m.map Prod.snd), some m, pred0⟩, none)
  ∧ setInputsStep ⟨true⟩ ⟨xb0, some m, pred0⟩ = (⟨.dict m, some m, pred0⟩, none)
  ∧ ({} : SetInputsCallback).as_dict = false
  ∧ ∀ (x0 x1 : α) (rest : List α),
      (gatherInputsMap x0 x1 rest).map Prod.snd = x0 :: x1 :: rest.take 1 := by
  refine ⟨rfl, rfl, rfl, ?_⟩
  intro x0 x1 rest
  cases rest with
  | nil => rfl
  | cons y ys => rfl

/-- Claim C6: the three hooks run in the order GatherInputsCallback,
SetInputsCallback, GeneratorCallback, because their priorities satisfy
GatherInputsCallback.order < SetInputsCallback.order < GeneratorCallback's
effective order, with more-negative priorities sorted earlier. -/
theorem c6_hook_priorities :
    orderOf CBKind.gather < orderOf CBKind.setInputs
  ∧ orderOf CBKind.setInputs < orderOf CBKind.generator
  ∧ (([[CBKind.gather, CBKind.setInputs, CBKind.generator],
       [CBKind.gather, CBKind.generator, CBKind.setInputs],
       [CBKind.setInputs, CBKind.gather, CBKind.generator],
       [CBKind.setInputs, CBKind.generator, CBKind.gather],
       [CBKind.generator, CBKind.gather, CBKind.setInputs],
       [CBKind.generator, CBKind.setInputs, CBKind.gather]].all
      (fun l =>
        decide (sortHooks l = [CBKind.gather, CBKind.setInputs, CBKind.generator])))
      = true) := by
  refine ⟨by decide, by decide, by decide⟩

/-- Claim C2: GeneratorCallback.before_batch first stores the generation
output as the batch's prediction and then signals cancellation of the rest
of the batch-processing stage; consequently, with the pipeline's hooks in
place, the stage's result does not depend on the loop's default forward/loss
computation, which never executes for that batch. -/
theorem c2_generator_stores_then_cancels {α : Type}
    (fwd : LearnState α → LearnState α) (gen : GenParams → α → α → α) (p : GenParams)
    (x0 x1 : α) (rest : List α) (inputs0 : Option (List (String × α)))
    (pred0 : Option α) :
    generatorStep gen p
        ⟨.dict (gatherInputsMap x0 x1 rest), some (gatherInputsMap x0 x1 rest), pred0⟩
      = (⟨.dict (gatherInputsMap x0 x1 rest), some (gatherInputsMap x0 x1 rest),
          some (gen p x0 x1)⟩, some .cancelBatch)
  ∧ runBatchStage [gatherStep, setInputsStep ⟨true⟩, generatorStep gen p] fwd
        ⟨.positional (x0 :: x1 :: rest), inputs0, pred0⟩
      = (⟨.dict (gatherInputsMap x0 x1 rest), some (gatherInputsMap x0 x1 rest),
          some (gen p x0 x1)⟩, none) := by
  constructor
  · cases rest with
    | nil => rfl
    | cons y ys => rfl
  · cases rest with
    | nil => rfl
    | cons y ys => rfl

/-- Claim C7: predict on a single string produces the same outcome as
predict on the one-element list containing that string, for every fixed set
of remaining arguments. -/
theorem c7_single_string_eq_singleton_list (modelSet isT5 : Bool)
    (encode : String → Tensor × Tensor) (gen : GenParams → Tensor → Tensor → Tensor)
    (squeeze : Tensor → Tensor) (decode : Tensor → String)
    (s : String) (t5Pre : String) (bs : Nat) (p : GenParams) :
    predictRun modelSet isT5 encode gen squeeze decode (.single s) t5Pre bs p
      = predictRun modelSet isT5 encode gen squeeze decode (.listOf [s]) t5Pre bs p := rfl

/-- Claim C8: train and evaluate on the concrete translator model always
fail with the not-implemented error, in every state. -/
theorem c8_train_evaluate_not_implemented {σ : Type} (s : σ) :
    TransformersTranslator.train s = .error .notImplementedError
  ∧ TransformersTranslator.evaluate s = .error .notImplementedError := ⟨rfl, rfl⟩

/-- Claim C1: for every input list of strings of length n, predict (with a
real model bound and a positive mini-batch size) returns the list of decoded
generation results, one per input string, in input order; in particular the
output has length n and output i is the decoded generation for input i. -/
theorem c1_predict_length_order (isT5 : Bool)
    (encode : String → Tensor × Tensor) (gen : GenParams → Tensor → Tensor → Tensor)
    (squeeze : Tensor → Tensor) (decode : Tensor → String)
    (texts : List String) (t5Pre : String) (bs : Nat) (p : GenParams)
    (hbs : 0 < bs) :
    (predictRun true isT5 encode gen squeeze decode (.listOf texts) t5Pre bs p).result
      = .ok (texts.map (translateOne isT5 encode gen squeeze decode t5Pre p))
  ∧ (texts.map (translateOne isT5 encode gen squeeze decode t5Pre p)).length
      = texts.length := by
  refine ⟨?_, List.length_map _ _⟩
  show Except.ok _ = _
  simp only [normalizeText, chunks_map_flatten, applyT5Pre_eq_map, List.map_map]
  rfl

/-- Witness for claim C1 at a concrete configuration: three inputs, batch
size 2, so the loader forms two mini-batches. -/
theorem c1_predict_length_order_witness :
    0 < 2
  ∧ ((predictRun true true (fun s => (s.data.map Char.toNat, [1]))
        (fun _ a b => a ++ b) (fun t => t.reverse) (fun t => toString t.length)
        (.listOf ["ab", "c", "d"]) "x" 2 {}).result
      = .ok (["ab", "c", "d"].map (translateOne true
          (fun s => (s.data.map Char.toNat, [1]))
          (fun _ a b => a ++ b) (fun t => t.reverse) (fun t => toString t.length)
          "x" {}))
  ∧ (["ab", "c", "d"].map (translateOne true
        (fun s => (s.data.map Char.toNat, [1]))
        (fun _ a b => a ++ b) (fun t => t.reverse) (fun t => toString t.length)
        "x" {})).length = (["ab", "c", "d"] : List String).length) :=
  ⟨by decide,
   c1_predict_length_order true (fun s => (s.data.map Char.toNat, [1]))
     (fun _ a b => a ++ b) (fun t => t.reverse) (fun t => toString t.length)
     ["ab", "c", "d"] "x" 2 {} (by decide)⟩

/-- Counterexample to claim C3 as stated: on a facade whose model was never
set, predict does fail with the configuration error, but tokenization is
attempted first — the tokenize event is reached (it is the first event of
the run), so the failure does not occur before tokenization. -/
theorem c3_counterexample :
    ((predictRun false false (fun s => (s.data.map Char.toNat, [1]))
        (fun _ a b => a ++ b) (fun t => t.reverse) (fun t => toString t.length)
        (.listOf ["hello"]) "translate English to German" 32 {}).result
      = .error .configurationError)
  ∧ ((predictRun false false (fun s => (s.data.map Char.toNat, [1]))
        (fun _ a b => a ++ b) (fun t => t.reverse) (fun t => toString t.length)
        (.listOf ["hello"]) "translate English to German" 32 {}).events.head?
      = some .tokenize) := ⟨rfl, rfl⟩

/-- Claim C3 (amended): calling predict with no real model bound fails with
the configuration error, raised at the get_preds step — after tokenization
has been attempted: the event trace is tokenize first, then get_preds,
where the error is raised. -/
theorem c3_unset_model_config_error (isT5 : Bool)
    (encode : String → Tensor × Tensor) (gen : GenParams → Tensor → Tensor → Tensor)
    (squeeze : Tensor → Tensor) (decode : Tensor → String)
    (text : TextInput) (t5Pre : String) (bs : Nat) (p : GenParams) :
    (predictRun false isT5 encode gen squeeze decode text t5Pre bs p).result
      = .error .configurationError
  ∧ (predictRun false isT5 encode gen squeeze decode text t5Pre bs p).events
      = [.tokenize, .getPreds] := ⟨rfl, rfl⟩

/-- Claim C9: for every model identifier, the wrapper constructs the
underlying translator exactly once: the first call on a fresh wrapper
constructs and caches it, and any call that finds a cached entry returns it
without constructing, leaving the registry unchanged. -/
theorem c9_registry_constructs_once {T R : Type} (load : String → T)
    (doPredict : T → R) (key : String) :
    ((EasyTranslator.translate load doPredict {} key).2.2 = true
  ∧ (EasyTranslator.translate load doPredict {} key).2.1.translators.lookup key
      = some (load key))
  ∧ ∀ (st : EasyTranslator T) (tr : T), st.translators.lookup key = some tr →
      EasyTranslator.translate load doPredict st key = (doPredict tr, st, false) := by
  refine ⟨⟨rfl, ?_⟩, ?_⟩
  · simp [EasyTranslator.translate, List.lookup]
  · intro st tr h
    simp [EasyTranslator.translate, h]

/-- Witness for claim C9: a cached entry for an identifier is reused without
construction. -/
theorem c9_registry_constructs_once_witness :
    EasyTranslator.translate (fun s => s.length) (fun n => n * 2)
        (⟨[("t5-small", 8)]⟩ : EasyTranslator Nat) "t5-small"
      = (16, ⟨[("t5-small", 8)]⟩, false) :=
  (c9_registry_constructs_once (fun s => s.length) (fun n => n * 2) "t5-small").2
    ⟨[("t5-small", 8)]⟩ 8 (by decide)

/-- Claim C10: the execution context is class-level, not per-instance: after
the one-time class initialization, any two facade instances whose instance
dictionaries do not shadow the _learn attribute resolve it to the same heap
cell, so set_model or set_as_dict through one instance changes the model and
routing flag observed through the other. -/
theorem c10_shared_execution_context {M : Type} (h0 : Heap M) (i1 i2 : PyInst)
    (m : M) (b : Bool)
    (h1 : i1.attrs.lookup "_learn" = none) (h2 : i2.attrs.lookup "_learn" = none) :
    observeModelVia (classInit h0).2 i2
        (setModelVia (classInit h0).2 i1 (classInit h0).1 m) = some (.real m)
  ∧ observeAsDictVia (classInit h0).2 i2
        (setAsDictVia (classInit h0).2 i1 (classInit h0).1 b) = some b := by
  have hr1 : learnRefOf (classInit h0).2 i1 = h0.cells.length := by
    simp [learnRefOf, h1, classInit]
  have hr2 : learnRefOf (classInit h0).2 i2 = h0.cells.length := by
    simp [learnRefOf, h2, classInit]
  have hget : ((classInit h0).1.cells)[h0.cells.length]?
      = some ({} : BaseLearnerCell M) := by
    simp [classInit]
  constructor
  · rw [observeModelVia, hr2, setModelVia, hr1, Heap.modifyCell, hget]
    simp [classInit, List.getElem?_set_self]
  · rw [observeAsDictVia, hr2, setAsDictVia, hr1, Heap.modifyCell, hget]
    simp [classInit, List.getElem?_set_self]

/-- Witness for claim C10: two concrete instances (one with an unrelated
instance attribute) observe the same model and flag after configuring
through the other. -/
theorem c10_shared_execution_context_witness :
    observeModelVia (classInit (⟨[]⟩ : Heap Nat)).2 ⟨[("model", 3)]⟩
        (setModelVia (classInit (⟨[]⟩ : Heap Nat)).2 ⟨[]⟩ (classInit (⟨[]⟩ : Heap Nat)).1 7)
      = some (.real 7)
  ∧ observeAsDictVia (classInit (⟨[]⟩ : Heap Nat)).2 ⟨[("model", 3)]⟩
        (setAsDictVia (classInit (⟨[]⟩ : Heap Nat)).2 ⟨[]⟩ (classInit (⟨[]⟩ : Heap Nat)).1 true)
      = some true :=
  c10_shared_execution_context (⟨[]⟩ : Heap Nat) ⟨[]⟩ ⟨[("model", 3)]⟩ 7 true
    (by decide) (by decide)

end AdaptNLP
